import Mathlib

/-!
Shallow embedding of the Cosmic-Sky particle simulation core
(`src/js/star.js`, `src/js/starfield.js`, `src/js/utils/utils.js`)
over the real numbers, together with theorems settling the frozen
claims about the specification.

Modelling conventions:
* JavaScript numbers are modelled as real numbers (`ℝ`); every update
  of the source is a pure numeric transform, so each method becomes a
  state-passing function.  `Math.pow(x, 0.5)` is modelled as
  `Real.sqrt`, `Math.atan2` via `Complex.arg`.
* Every call to `Math.random()` becomes an explicit parameter (a field
  of a dedicated record of random draws, or a stream of such records),
  so all functions are deterministic in their inputs.
* JavaScript truthiness tests on numbers (`v || d`, `if (v)`) are
  modelled by explicit comparison with `0`; a possibly-`undefined`
  value is an `Option`.
* The class-level (static) shooting-star state of `Star` is modelled
  as an explicit `ShootingState` record threaded through the calls;
  the integer-valued counter `shootingStarsCount` is an `ℤ`.
-/

noncomputable section

namespace CosmicSky

/-- JavaScript `v || d` for a possibly-undefined numeric `v`:
the default `d` is used when `v` is `undefined` or `0` (falsy). -/
def jsOrNum (v : Option ℝ) (d : ℝ) : ℝ :=
  match v with
  | none => d
  | some x => if x = 0 then d else x

namespace Utils

/-- Model of `Utils.randomInRange(min, max)` from `utils.js`:
`Math.random() * (max - min) + min`, with the random draw `r` explicit. -/
def randomInRange (r lo hi : ℝ) : ℝ := r * (hi - lo) + lo

/-- Model of `Utils.distance(x1, y1, x2, y2)` from `utils.js`:
`Math.sqrt(dx * dx + dy * dy)`. -/
def distance (x1 y1 x2 y2 : ℝ) : ℝ :=
  Real.sqrt ((x1 - x2) * (x1 - x2) + (y1 - y2) * (y1 - y2))

end Utils

/-- Model of `Math.atan2(y, x)`: the argument of the complex number
`x + y i` (range `(-π, π]`, `atan2(0, 0) = 0`, matching JavaScript). -/
def jsAtan2 (y x : ℝ) : ℝ := Complex.arg ⟨x, y⟩

/-- The mouse state passed to `Star.update` (`this.mouse` of the field
manager, possibly enriched with normalized coordinates; absent
coordinates are `none`). -/
structure Mouse where
  x : ℝ
  y : ℝ
  normX : Option ℝ := none
  normY : Option ℝ := none

/-- The shooting-star configuration `Star.settings` from `star.js`
(lines 92-97).  `maxStarsAtOnce`, `maxShootDurationSeconds` and
`maxEventSeconds` are JavaScript numbers. -/
structure ShootingSettings where
  enabled : Bool
  maxStarsAtOnce : ℝ
  maxShootDurationSeconds : ℝ
  maxEventSeconds : ℝ

/-- The default settings installed by the first `Star` constructor. -/
def defaultShootingSettings : ShootingSettings :=
  { enabled := false
    maxStarsAtOnce := 3
    maxShootDurationSeconds := 3
    maxEventSeconds := 6 }

/-- The class-level (static) shooting-star state of `Star`:
`Star.shootingStarsCount`, `Star.lastShootingStarTime`,
`Star.nextShootingStarDelay` and `Star.settings`.  The counter is only
ever incremented and decremented by `1`, hence integer-valued. -/
structure ShootingState where
  shootingStarsCount : ℤ
  lastShootingStarTime : ℝ
  nextShootingStarDelay : ℝ
  settings : ShootingSettings

/-- The initial static state installed by the first `Star` constructor
(`star.js` lines 87-99). -/
def initialShootingState : ShootingState :=
  { shootingStarsCount := 0
    lastShootingStarTime := 0
    nextShootingStarDelay := 0
    settings := defaultShootingSettings }

/-- The per-instance state of one `Star` (`star.js` constructor,
lines 37-158).  `selectedForEllipse` is the source's
`_selectedForEllipse`; `currentLightness`/`currentAlpha` are created
lazily by the source's shooting branch and modelled as starting at 0. -/
structure Star where
  x : ℝ
  y : ℝ
  originX : ℝ
  originY : ℝ
  size : ℝ
  zIndex : ℝ
  speed : ℝ
  moveStarsAwayFromMouse : Bool
  hue : ℝ
  saturation : ℝ
  lightness : ℝ
  alpha : ℝ
  amplitude : ℝ
  frequency : ℝ
  phase : ℝ
  selectedForEllipse : Bool
  ellipseEnabled : Bool
  ellipseRadiusX : ℝ
  ellipseRadiusY : ℝ
  ellipseSpeed : ℝ
  ellipseAngle : ℝ
  ellipseRotation : ℝ
  isShooting : Bool
  shootStartTime : ℝ
  shootDuration : ℝ
  shootStartX : ℝ
  shootStartY : ℝ
  shootAngle : ℝ
  shootDistance : ℝ
  currentSize : ℝ
  targetSize : ℝ
  pulseSpeed : ℝ
  pulseAmount : ℝ
  parallaxDepth : ℝ
  parallaxX : ℝ
  parallaxY : ℝ
  isBlinking : Bool
  blinkStartTime : ℝ
  blinkDuration : ℝ
  originalLightness : ℝ
  originalAlpha : ℝ
  targetSizeMultiplier : ℝ
  currentSizeMultiplier : ℝ
  lastSizeChange : ℝ
  sizeChangeInterval : ℝ
  currentLightness : ℝ
  currentAlpha : ℝ

/-- The options object accepted by the `Star` constructor; `none`
models an absent (`undefined`) option. -/
structure StarOptions where
  size : Option ℝ := none
  zIndex : Option ℝ := none
  speed : Option ℝ := none
  moveStarsAwayFromMouse : Bool := false
  ellipseEnabled : Option Bool := none
  ellipticalMovementRate : Option ℝ := none
  ellipseRadiusX : Option ℝ := none
  ellipseRadiusY : Option ℝ := none
  ellipseSpeed : Option ℝ := none
  ellipseRotation : Option ℝ := none
  amplitude : Option ℝ := none
  frequency : Option ℝ := none

/-- One record of the random draws consumed by the `Star` constructor,
in source order. -/
structure StarRand where
  sizeR : ℝ := 0
  zIndexR : ℝ := 0
  hueR : ℝ := 0
  satR : ℝ := 0
  lightR : ℝ := 0
  alphaR : ℝ := 0
  amplR : ℝ := 0
  freqR : ℝ := 0
  phaseR : ℝ := 0
  ellipseSelR : ℝ := 1
  ellipseRadiusXR : ℝ := 0
  ellipseRadiusYR : ℝ := 0
  ellipseSpeedR : ℝ := 0
  ellipseAngleR : ℝ := 0
  ellipseRotationR : ℝ := 0
  pulseSpeedR : ℝ := 0
  parallaxDepthR : ℝ := 0
  sizeChangeIntervalR : ℝ := 0

/-- The `Star` constructor (`star.js` lines 37-158) as a pure function.
Option fields use the source's `options.f !== undefined ? options.f : …`
or `options.f || …` semantics; `connectToMouse` is passed by the field
manager but never read by the constructor and therefore not modelled. -/
def mkStar (x y : ℝ) (o : StarOptions) (r : StarRand) : Star :=
  let size := jsOrNum o.size (Utils.randomInRange r.sizeR 0.5 3)
  let speed := jsOrNum o.speed 1
  let lightness := Utils.randomInRange r.lightR 50 90
  let alpha := Utils.randomInRange r.alphaR 0.6 1
  let ellipticalRate := o.ellipticalMovementRate.getD 0.1
  let selected : Bool := decide (r.ellipseSelR < ellipticalRate)
  { x := x
    y := y
    originX := x
    originY := y
    size := size
    zIndex := jsOrNum o.zIndex r.zIndexR
    speed := speed
    moveStarsAwayFromMouse := o.moveStarsAwayFromMouse
    hue := Utils.randomInRange r.hueR 0 60 + 180
    saturation := Utils.randomInRange r.satR 70 100
    lightness := lightness
    alpha := alpha
    amplitude := o.amplitude.getD (Utils.randomInRange r.amplR 2 15)
    frequency := o.frequency.getD (Utils.randomInRange r.freqR 0.0003 0.001 * speed)
    phase := Real.pi * 2 * r.phaseR
    selectedForEllipse := selected
    ellipseEnabled := o.ellipseEnabled.getD false && selected
    ellipseRadiusX := o.ellipseRadiusX.getD (Utils.randomInRange r.ellipseRadiusXR 50 150)
    ellipseRadiusY := o.ellipseRadiusY.getD (Utils.randomInRange r.ellipseRadiusYR 25 100)
    ellipseSpeed := o.ellipseSpeed.getD (Utils.randomInRange r.ellipseSpeedR 0.0005 0.002 * speed)
    ellipseAngle := r.ellipseAngleR * (Real.pi * 2)
    ellipseRotation := o.ellipseRotation.getD (r.ellipseRotationR * (Real.pi * 2))
    isShooting := false
    shootStartTime := 0
    shootDuration := 0
    shootStartX := 0
    shootStartY := 0
    shootAngle := 0
    shootDistance := 0
    currentSize := size
    targetSize := size
    pulseSpeed := Utils.randomInRange r.pulseSpeedR 0.003 0.015
    pulseAmount := 0.15
    parallaxDepth := 0.5 + r.parallaxDepthR * 0.5
    parallaxX := 0
    parallaxY := 0
    isBlinking := false
    blinkStartTime := 0
    blinkDuration := 0
    originalLightness := lightness
    originalAlpha := alpha
    targetSizeMultiplier := 1
    currentSizeMultiplier := 1
    lastSizeChange := 0
    sizeChangeInterval := 3000 + r.sizeChangeIntervalR * 10000
    currentLightness := 0
    currentAlpha := 0 }

/-- The new-settings argument of `Star.updateShootingStarSettings`;
each field may be absent (`undefined`). -/
structure IncomingShootingSettings where
  enabled : Option Bool := none
  maxStarsAtOnce : Option ℝ := none
  maxShootDurationSeconds : Option ℝ := none
  maxEventSeconds : Option ℝ := none

/-- Model of `Star.updateShootingStarSettings` (`star.js` lines 170-180):
`enabled` uses an `!== undefined` test, while the three numeric fields
use `new || old`, so a falsy (`0` or absent) value keeps the old one.
A null `settings` argument leaves everything unchanged. -/
def updateShootingStarSettings (incoming : Option IncomingShootingSettings)
    (old : ShootingSettings) : ShootingSettings :=
  match incoming with
  | none => old
  | some s =>
    { enabled := s.enabled.getD old.enabled
      maxStarsAtOnce := jsOrNum s.maxStarsAtOnce old.maxStarsAtOnce
      maxShootDurationSeconds := jsOrNum s.maxShootDurationSeconds old.maxShootDurationSeconds
      maxEventSeconds := jsOrNum s.maxEventSeconds old.maxEventSeconds }

/-- One record of the random draws consumed by `Star.update` /
`Star.startShooting` during a single call, in source order. -/
structure UpdateRand where
  blinkTrigR : ℝ := 1
  blinkDurR : ℝ := 0
  shootDurR : ℝ := 0
  shootAngleR : ℝ := 0
  shootDistR : ℝ := 0
  delayR : ℝ := 0
  sizeMulR : ℝ := 0
  sizeChangeIntervalR : ℝ := 0

/-- Model of `Star.startShooting` (`star.js` lines 206-242).  Returns the
source's boolean result together with the updated star and static
state.  `Star.lastShootingStarTime &&` is the JavaScript truthiness
test, i.e. a comparison with `0`. -/
def startShooting (time : ℝ) (r : UpdateRand) (s : Star) (g : ShootingState) :
    Bool × Star × ShootingState :=
  if g.settings.enabled = false then
    (false, s, g)
  else if g.settings.maxStarsAtOnce ≤ (g.shootingStarsCount : ℝ) ∨
      (g.lastShootingStarTime ≠ 0 ∧
        time - g.lastShootingStarTime < g.nextShootingStarDelay) then
    (false, s, g)
  else
    let s' := { s with
      isShooting := true
      shootStartTime := time
      shootDuration := 1000 + r.shootDurR * g.settings.maxShootDurationSeconds * 1000
      shootStartX := s.x
      shootStartY := s.y
      shootAngle := r.shootAngleR * (Real.pi * 2)
      shootDistance := 800 + r.shootDistR * 1000 }
    let minDelayMs : ℝ := 100
    let maxDelayMs := g.settings.maxEventSeconds * 1000
    let g' := { g with
      shootingStarsCount := g.shootingStarsCount + 1
      lastShootingStarTime := time
      nextShootingStarDelay := minDelayMs + r.delayR * (maxDelayMs - minDelayMs) }
    (true, s', g')

/-- Model of `Star.updateBlinkingEffect` (`star.js` lines 254-279): a random
low-probability trigger starts a blink; an active blink with progress
`≥ 1` is ended, restoring the pre-blink snapshot; otherwise lightness
and alpha are modulated by the half-sine envelope. -/
def updateBlinkingEffect (time trigR durR : ℝ) (s : Star) : Star :=
  let s :=
    if s.isBlinking = false ∧ trigR < 0.00015 then
      { s with isBlinking := true, blinkStartTime := time,
               blinkDuration := 500 + durR * 1000 }
    else s
  if s.isBlinking = true then
    let blinkProgress := (time - s.blinkStartTime) / s.blinkDuration
    if 1 ≤ blinkProgress then
      { s with isBlinking := false, lightness := s.originalLightness,
               alpha := s.originalAlpha }
    else
      let blinkIntensity := Real.sin (blinkProgress * Real.pi) * 0.8 + 1.2
      { s with lightness := s.originalLightness * blinkIntensity,
               alpha := s.originalAlpha * (blinkIntensity * 0.5 + 0.8) }
  else s

/-- The guard `!mouse || !mouse.normX || !mouse.normY` at the top of
`Star.update`: the mouse is absent, or a normalized coordinate is
absent or `0` (falsy). -/
def noParallaxInput : Option Mouse → Prop
  | none => True
  | some m => m.normX = none ∨ m.normX = some 0 ∨ m.normY = none ∨ m.normY = some 0

instance : DecidablePred noParallaxInput
  | none => isTrue trivial
  | some _ => inferInstanceAs (Decidable (_ ∨ _ ∨ _ ∨ _))

/-- The parallax-reset step at the top of `Star.update` (`star.js`
lines 352-358), taken when the mouse is absent or its normalized
coordinates are falsy. -/
def parallaxDecayStep (mouse : Option Mouse) (s : Star) : Star :=
  if noParallaxInput mouse then
    let px := s.parallaxX * 0.9
    let py := s.parallaxY * 0.9
    { s with parallaxX := if |px| < 0.1 then 0 else px,
             parallaxY := if |py| < 0.1 then 0 else py }
  else s

/-- The tail of `Star.update` after the shooting logic (`star.js`
lines 401-462): periodic size retargeting, smoothed size multiplier,
elliptical or floating positional offset, and mouse-proximity
repulsion.  Does not touch the static shooting state. -/
def restUpdate (time : ℝ) (mouse : Option Mouse) (maxDistance : ℝ)
    (r : UpdateRand) (s : Star) : Star :=
  let s :=
    if time - s.lastSizeChange > s.sizeChangeInterval then
      { s with targetSizeMultiplier := 0.8 + r.sizeMulR * 0.6,
               lastSizeChange := time,
               sizeChangeInterval := 3000 + r.sizeChangeIntervalR * 10000 }
    else s
  let s := { s with currentSizeMultiplier :=
    s.currentSizeMultiplier + (s.targetSizeMultiplier - s.currentSizeMultiplier) * 0.02 }
  let s :=
    if s.ellipseEnabled = true then
      let speedVariation := 1 + Real.sin (time * 0.001) * 0.2
      let newAngle := s.ellipseAngle + s.ellipseSpeed * speedVariation
      let radiusVariation := 1 + Real.sin (time * 0.0007) * 0.15
      let effectiveRadiusX := s.ellipseRadiusX * radiusVariation
      let effectiveRadiusY := s.ellipseRadiusY * (1 + Real.sin (time * 0.0005) * 0.1)
      let cosA := Real.cos newAngle
      let sinA := Real.sin newAngle
      let cosR := Real.cos s.ellipseRotation
      let sinR := Real.sin s.ellipseRotation
      let xOffset := effectiveRadiusX * cosA * cosR - effectiveRadiusY * sinA * sinR
      let yOffset := effectiveRadiusX * cosA * sinR + effectiveRadiusY * sinA * cosR
      { s with ellipseAngle := newAngle,
               x := s.originX + xOffset, y := s.originY + yOffset }
    else
      let timeFactor := time * 0.0005
      let xOffset := Real.sin (timeFactor * s.frequency + s.phase) * s.amplitude
      let yOffset := Real.cos (timeFactor * s.frequency * 0.5 + s.phase * 1.5) * s.amplitude * 0.6
      { s with x := s.originX + xOffset, y := s.originY + yOffset }
  match mouse with
  | none => s
  | some m =>
    if s.moveStarsAwayFromMouse = true then
      let dist := Utils.distance s.x s.y m.x m.y
      let proximity := 1 - min (dist / maxDistance) 1
      if 0 < proximity then
        let angle := jsAtan2 (s.y - m.y) (s.x - m.x)
        let force := proximity * 2
        { s with x := s.x + Real.cos angle * force,
                 y := s.y + Real.sin angle * force,
                 targetSize := s.size * (1 + s.pulseAmount * 0.5 * proximity) }
      else
        { s with targetSize := s.size }
    else s

/-- Model of `Star.update` (`star.js` lines 350-463): parallax reset, blinking,
then the shooting branch — an active shoot either completes (releasing
one unit of the shared counter and falling through to the regular
update) or advances and returns early; an idle star may start a shoot
(and returns early); otherwise the regular update runs. -/
def update (time : ℝ) (mouse : Option Mouse) (maxDistance : ℝ)
    (r : UpdateRand) (s : Star) (g : ShootingState) : Star × ShootingState :=
  let s := parallaxDecayStep mouse s
  let s := updateBlinkingEffect time r.blinkTrigR r.blinkDurR s
  if g.settings.enabled = true ∧ s.isShooting = true then
    let shootProgress := (time - s.shootStartTime) / s.shootDuration
    if 1 ≤ shootProgress then
      let s := { s with isShooting := false,
                        currentLightness := s.originalLightness,
                        currentAlpha := s.originalAlpha }
      let g := { g with shootingStarsCount := g.shootingStarsCount - 1 }
      (restUpdate time mouse maxDistance r s, g)
    else
      let easedProgress := Real.sqrt shootProgress
      let currentDistance := s.shootDistance * easedProgress
      let tailFade := 1 - shootProgress ^ 2
      ({ s with x := s.shootStartX + Real.cos s.shootAngle * currentDistance,
                y := s.shootStartY + Real.sin s.shootAngle * currentDistance,
                currentLightness := 70 + 30 * tailFade,
                currentAlpha := s.originalAlpha * 1.5 * tailFade,
                currentSize := s.size * (1.8 + 0.5 * Real.sin (time * 0.02)) }, g)
  else if g.settings.enabled = true ∧ s.isShooting = false ∧
      (g.shootingStarsCount : ℝ) < g.settings.maxStarsAtOnce ∧
      (g.lastShootingStarTime = 0 ∨
        time - g.lastShootingStarTime > g.nextShootingStarDelay) then
    let res := startShooting time r s g
    (res.2.1, res.2.2)
  else
    (restUpdate time mouse maxDistance r s, g)

/-- The optional fixed star color `options.starColor` of the field
manager (`{hue, saturation, lightness}`, each possibly absent). -/
structure StarColor where
  hue : Option ℝ := none
  saturation : Option ℝ := none
  lightness : Option ℝ := none

/-- The color override applied by `createClusters`/`createStars` when
`options.starColor` is set: `star.hue = starColor.hue || star.hue` and
likewise for saturation and lightness. -/
def applyStarColor (sc : Option StarColor) (s : Star) : Star :=
  match sc with
  | none => s
  | some c =>
    { s with hue := jsOrNum c.hue s.hue,
             saturation := jsOrNum c.saturation s.saturation,
             lightness := jsOrNum c.lightness s.lightness }

/-- The field-manager options (`starfield.js` constructor, lines
23-53), with the constructor's defaults; options that `createStars`
reads with an `!== undefined` guard are `Option`s.  `clustersEnabled`
is accepted through the options spread but never read by the source. -/
structure StarfieldOptions where
  starCount : ℕ := 500
  connectionDistance : ℝ := 150
  connectionOpacity : ℝ := 0.2
  starColor : Option StarColor := none
  backgroundOpacity : ℝ := 1
  ellipseEnabled : Bool := false
  ellipticalMovementRate : ℝ := 0.1
  starMovementSpeed : Option ℝ := none
  maxStarsPerCluster : Option ℕ := none
  clusterCount : Option ℕ := none
  trailFadeSpeed : Option ℝ := none
  clustersEnabled : Bool := false

/-- Random draws for one cluster center in `createClusters`. -/
structure ClusterRand where
  cxR : ℝ := 0
  cyR : ℝ := 0
  cradiusR : ℝ := 0

/-- Random draws for one clustered star in `createClusters`
(position within the cluster, constructor options, and the `Star`
constructor's own draws). -/
structure ClusterStarRand where
  angleR : ℝ := 0
  distR : ℝ := 0
  sizeR : ℝ := 0
  zIndexR : ℝ := 0
  speedR : ℝ := 0
  amplR : ℝ := 0
  freqR : ℝ := 0
  radiusXR : ℝ := 0
  radiusXVarR : ℝ := 0
  radiusYR : ℝ := 0
  radiusYVarR : ℝ := 0
  ellipseSpeedR : ℝ := 0
  rotR : ℝ := 0
  star : StarRand := {}

/-- Random draws for one distributed star in `createStars` (edge
placement choice, position, constructor options, and the `Star`
constructor's own draws). -/
structure FieldStarRand where
  edgeChoiceR : ℝ := 0
  edgeR : ℝ := 0
  posR : ℝ := 0
  offR : ℝ := 0
  xR : ℝ := 0
  yR : ℝ := 0
  sizeR : ℝ := 0
  zIndexR : ℝ := 0
  speedR : ℝ := 0
  amplR : ℝ := 0
  freqR : ℝ := 0
  radiusXR : ℝ := 0
  radiusXVarR : ℝ := 0
  radiusYR : ℝ := 0
  radiusYVarR : ℝ := 0
  ellipseSpeedR : ℝ := 0
  rotR : ℝ := 0
  star : StarRand := {}

/-- Model of `Starfield.createClusters` (`starfield.js` lines 130-177): `count`
cluster centers inside a 10%-padded rectangle, each receiving
`starsPerCluster` stars at radius `random^1.5 · clusterRadius` and a
uniform angle; each star gets clustered-star options and the optional
color override. -/
def createClusters (count : ℕ) (width height : ℝ) (starsPerCluster : ℕ)
    (movementSpeed : ℝ) (opts : StarfieldOptions)
    (rc : ℕ → ClusterRand) (rcs : ℕ → ℕ → ClusterStarRand) : List Star :=
  let padding := min width height * 0.1
  (List.range count).flatMap fun i =>
    let c := rc i
    let clusterX := Utils.randomInRange c.cxR padding (width - padding)
    let clusterY := Utils.randomInRange c.cyR padding (height - padding)
    let clusterRadius := Utils.randomInRange c.cradiusR 30 100
    (List.range starsPerCluster).map fun j =>
      let r := rcs i j
      let angle := r.angleR * (Real.pi * 2)
      let dist := r.distR ^ (1.5 : ℝ) * clusterRadius
      let x := clusterX + Real.cos angle * dist
      let y := clusterY + Real.sin angle * dist
      let star := mkStar x y
        { size := some (Utils.randomInRange r.sizeR 0.5 2.5)
          zIndex := some r.zIndexR
          speed := some (Utils.randomInRange r.speedR 0.05 0.2 * movementSpeed)
          amplitude := some (Utils.randomInRange r.amplR 2 10 * movementSpeed)
          frequency := some (Utils.randomInRange r.freqR 0.0003 0.001 * movementSpeed)
          ellipseEnabled := some opts.ellipseEnabled
          ellipticalMovementRate := some opts.ellipticalMovementRate
          ellipseRadiusX := some (Utils.randomInRange r.radiusXR 10 50 * (0.5 + r.radiusXVarR * 1.5))
          ellipseRadiusY := some (Utils.randomInRange r.radiusYR 5 30 * (0.5 + r.radiusYVarR * 1.5))
          ellipseSpeed := some (Utils.randomInRange r.ellipseSpeedR 0.0005 0.002 * movementSpeed)
          ellipseRotation := some (r.rotR * (Real.pi * 2)) } r.star
      applyStarColor opts.starColor star

/-- The position of one distributed star in `createStars` (`starfield.js`
lines 205-229): with probability 0.3 the star is placed in a 20% band
along one of the four edges, otherwise uniformly on the canvas. -/
def fieldStarPosition (width height : ℝ) (r : FieldStarRand) : ℝ × ℝ :=
  if r.edgeChoiceR > 0.7 then
    let edge : ℤ := ⌊r.edgeR * 4⌋
    if edge = 0 then (width * r.posR, r.offR * height * 0.2)
    else if edge = 1 then (width - r.offR * width * 0.2, height * r.posR)
    else if edge = 2 then (width * r.posR, height - r.offR * height * 0.2)
    else (r.offR * width * 0.2, height * r.posR)
  else
    (Utils.randomInRange r.xR 0 width, Utils.randomInRange r.yR 0 height)

/-- Model of `Starfield.createStars` (`starfield.js` lines 185-258): clears the
collection, creates `clusterCount × starsPerCluster` clustered stars
(about 20% of the total, capped per cluster), fills up with distributed
stars, and sorts everything ascending by `zIndex`.
`Math.floor(starCount * 0.2)` is `starCount * 2 / 10` in `ℕ`.
`starsPerCluster` is an `Option ℕ` whose `none` models `NaN`: with
`clusterCount = 0` the JS `clusteredStars / clusterCount` is
`Infinity` when `clusteredStars > 0` (so the `min` yields
`maxStarsPerCluster`) but `0/0 = NaN` when `clusteredStars = 0`, and
`Math.floor`/`Math.min` propagate the `NaN`.  `remainingStars` then
also becomes `NaN` (`starCount - 0 * NaN`), and a `for` loop bounded
by `NaN` runs zero times, so no distributed star is created; the
`.getD 0` passed to `createClusters` is irrelevant there because zero
clusters are created. -/
def createStars (opts : StarfieldOptions) (width height : ℝ)
    (rc : ℕ → ClusterRand) (rcs : ℕ → ℕ → ClusterStarRand)
    (rf : ℕ → FieldStarRand) : List Star :=
  let starMovementSpeed := opts.starMovementSpeed.getD 0.5
  let maxStarsPerCluster := opts.maxStarsPerCluster.getD 25
  let clusterCount := opts.clusterCount.getD 5
  let clusteredStars := opts.starCount * 2 / 10
  let starsPerCluster : Option ℕ :=
    if clusterCount = 0 then
      if clusteredStars = 0 then none
      else some maxStarsPerCluster
    else some (min (clusteredStars / clusterCount) maxStarsPerCluster)
  let clustered := createClusters clusterCount width height (starsPerCluster.getD 0)
    starMovementSpeed opts rc rcs
  let remainingStars : Option ℕ :=
    starsPerCluster.map fun spc => opts.starCount - clusterCount * spc
  let field := (List.range (remainingStars.getD 0)).map fun i =>
    let r := rf i
    let pos := fieldStarPosition width height r
    let star := mkStar pos.1 pos.2
      { size := some (Utils.randomInRange r.sizeR 0.3 2.0)
        zIndex := some r.zIndexR
        speed := some (Utils.randomInRange r.speedR 0.02 0.15 * starMovementSpeed)
        amplitude := some (Utils.randomInRange r.amplR 1 6 * starMovementSpeed)
        frequency := some (Utils.randomInRange r.freqR 0.0001 0.0008 * starMovementSpeed)
        ellipticalMovementRate := some opts.ellipticalMovementRate
        ellipseEnabled := some opts.ellipseEnabled
        ellipseRadiusX := some (Utils.randomInRange r.radiusXR 10 50 * (0.5 + r.radiusXVarR * 1.5))
        ellipseRadiusY := some (Utils.randomInRange r.radiusYR 5 30 * (0.5 + r.radiusYVarR * 1.5))
        ellipseSpeed := some (Utils.randomInRange r.ellipseSpeedR 0.0005 0.002 * starMovementSpeed)
        ellipseRotation := some (r.rotR * (Real.pi * 2)) } r.star
    applyStarColor opts.starColor star
  (clustered ++ field).mergeSort fun a b => decide (a.zIndex ≤ b.zIndex)

/-- Model of `Starfield.setBackgroundOpacity` (`starfield.js` lines 467-469):
clamps the value to `[0, 1]` and stores it. -/
def setBackgroundOpacity (opacity : ℝ) (opts : StarfieldOptions) : StarfieldOptions :=
  { opts with backgroundOpacity := min 1 (max 0 opacity) }

/-- The alpha of the translucent background fill composited by
`Starfield.animate` (`starfield.js` lines 489-491):
`(this.options.backgroundOpacity || 1) * trailFadeSpeed`, where the
`||` falls back to `1` on a falsy (zero) stored opacity and
`trailFadeSpeed` defaults to `0.05`. -/
def animateFillAlpha (opts : StarfieldOptions) : ℝ :=
  let trailFadeSpeed := opts.trailFadeSpeed.getD 0.05
  jsOrNum (some opts.backgroundOpacity) 1 * trailFadeSpeed

/-- The canvas-dependent state touched by `Starfield.resize`. -/
structure CanvasState where
  canvasWidth : ℝ
  canvasHeight : ℝ
  stars : List Star

/-- The per-star body of the resize loop (`starfield.js` lines
385-390): rescale the origin and re-derive the position with a ±20px
jitter; `jitter i` supplies the two `Math.random()` draws of the
`i`-th star of the collection. -/
def resizeStars (scaleX scaleY : ℝ) (jitter : ℕ → ℝ × ℝ) :
    ℕ → List Star → List Star
  | _, [] => []
  | i, s :: rest =>
    let originX := s.originX * scaleX
    let originY := s.originY * scaleY
    { s with originX := originX, originY := originY,
             x := originX + ((jitter i).1 * 2 - 1) * 20,
             y := originY + ((jitter i).2 * 2 - 1) * 20 } ::
      resizeStars scaleX scaleY jitter (i + 1) rest

/-- Model of `Starfield.resize` (`starfield.js` lines 364-392): sets the
backing-store size to `⌊css × devicePixelRatio⌋`, then — reading
`this.canvas.width` *after* that assignment — multiplies every star's
origin by `css / ⌊css × dpr⌋` and re-derives its position with a ±20px
jitter. -/
def resize (width height dpr : ℝ) (st : CanvasState) (jitter : ℕ → ℝ × ℝ) :
    CanvasState :=
  let canvasWidth : ℝ := (⌊width * dpr⌋ : ℤ)
  let canvasHeight : ℝ := (⌊height * dpr⌋ : ℤ)
  let stars :=
    if 0 < st.stars.length then
      let scaleX := width / canvasWidth
      let scaleY := height / canvasHeight
      resizeStars scaleX scaleY jitter 0 st.stars
    else st.stars
  { canvasWidth := canvasWidth, canvasHeight := canvasHeight, stars := stars }

/-- An rgba color with real channels, as written into a gradient stop. -/
structure Rgba where
  r : ℝ
  g : ℝ
  b : ℝ
  a : ℝ

/-- One connection line drawn by `Starfield.drawConnections`: its two
endpoints and the two gradient color stops. -/
structure ConnLine where
  x1 : ℝ
  y1 : ℝ
  x2 : ℝ
  y2 : ℝ
  grad0 : Rgba
  grad1 : Rgba

/-- The connection line drawn for one star by `Starfield.drawConnections`
(`starfield.js` lines 539-564), when the star is strictly within the
connection distance of the mouse: a white start stop at
`(1 - d/D) · connectionOpacity` alpha and an `rgb(100, 149, 237)` end
stop at half that alpha. -/
def connectionFor (s : Star) (m : Mouse) (connectionDistance connectionOpacity : ℝ) :
    Option ConnLine :=
  let dist := Utils.distance s.x s.y m.x m.y
  if dist < connectionDistance then
    let opacity := (1 - dist / connectionDistance) * connectionOpacity
    some { x1 := s.x, y1 := s.y, x2 := m.x, y2 := m.y,
           grad0 := { r := 255, g := 255, b := 255, a := opacity },
           grad1 := { r := 100, g := 149, b := 237, a := opacity * 0.5 } }
  else none

/-- Model of `Starfield.drawConnections` (`starfield.js` lines 528-567): no
lines when the mouse is absent, otherwise one line per star within the
connection distance. -/
def drawConnections (stars : List Star) (mouse : Option Mouse)
    (connectionDistance connectionOpacity : ℝ) : List ConnLine :=
  match mouse with
  | none => []
  | some m => stars.filterMap fun s => connectionFor s m connectionDistance connectionOpacity

/-- One externally driven call into the shared shooting-star budget: a
per-particle `Star.update` or a direct `Star.startShooting`, applied to
the star at index `i` of the field. -/
inductive FieldOp where
  | upd (i : ℕ) (time : ℝ) (mouse : Option Mouse) (maxDistance : ℝ) (r : UpdateRand)
  | shoot (i : ℕ) (time : ℝ) (r : UpdateRand)

/-- The whole-field state: the particle collection together with the
class-level shooting-star state shared by all particles. -/
structure FieldState where
  stars : List Star
  glob : ShootingState

/-- Application of one call to the field state; a call addressing a
nonexistent index leaves the state unchanged. -/
def applyFieldOp (st : FieldState) (op : FieldOp) : FieldState :=
  match op with
  | .upd i time mouse maxDistance r =>
    match st.stars.get? i with
    | none => st
    | some s =>
      let res := update time mouse maxDistance r s st.glob
      { stars := st.stars.set i res.1, glob := res.2 }
  | .shoot i time r =>
    match st.stars.get? i with
    | none => st
    | some s =>
      let res := startShooting time r s st.glob
      { stars := st.stars.set i res.2.1, glob := res.2.2 }

/-- A sequence of per-particle calls applied in order. -/
def runFieldOps (st : FieldState) (ops : List FieldOp) : FieldState :=
  ops.foldl applyFieldOp st

/-- A concrete particle state with simple field values, used to
instantiate theorems on explicit inputs. -/
def testStar : Star where
  x := 0
  y := 0
  originX := 0
  originY := 0
  size := 1
  zIndex := 1/2
  speed := 1
  moveStarsAwayFromMouse := false
  hue := 200
  saturation := 80
  lightness := 60
  alpha := 1
  amplitude := 5
  frequency := 1/2000
  phase := 0
  selectedForEllipse := false
  ellipseEnabled := false
  ellipseRadiusX := 100
  ellipseRadiusY := 50
  ellipseSpeed := 1/1000
  ellipseAngle := 0
  ellipseRotation := 0
  isShooting := false
  shootStartTime := 0
  shootDuration := 0
  shootStartX := 0
  shootStartY := 0
  shootAngle := 0
  shootDistance := 0
  currentSize := 1
  targetSize := 1
  pulseSpeed := 1/100
  pulseAmount := 3/20
  parallaxDepth := 3/4
  parallaxX := 0
  parallaxY := 0
  isBlinking := false
  blinkStartTime := 0
  blinkDuration := 0
  originalLightness := 60
  originalAlpha := 1
  targetSizeMultiplier := 1
  currentSizeMultiplier := 1
  lastSizeChange := 0
  sizeChangeInterval := 5000
  currentLightness := 0
  currentAlpha := 0

/-- The shooting-star settings with the feature switched on and the
other fields at their defaults. -/
def enabledSettings : ShootingSettings :=
  { enabled := true
    maxStarsAtOnce := 3
    maxShootDurationSeconds := 3
    maxEventSeconds := 6 }

/-- The initial shared state with shooting stars enabled. -/
def enabledShootState : ShootingState :=
  { shootingStarsCount := 0
    lastShootingStarTime := 0
    nextShootingStarDelay := 0
    settings := enabledSettings }

/-- A concrete particle in mid-shoot (started at time 0, duration
1000 ms). -/
def shootingStar : Star :=
  { testStar with isShooting := true, shootDuration := 1000 }

/-- The shared state while one shoot is active, with the feature
switched off. -/
def busyOffState : ShootingState :=
  { shootingStarsCount := 1
    lastShootingStarTime := 0
    nextShootingStarDelay := 100
    settings := defaultShootingSettings }

/-- The same shared state with the feature switched back on. -/
def busyOnState : ShootingState :=
  { busyOffState with settings := enabledSettings }

/-- A concrete particle mid-blink: blink started at time 0 with
duration 1000, baseline lightness 60 and baseline alpha 1. -/
def blinkStar : Star :=
  { testStar with isBlinking := true, blinkDuration := 1000 }

/-- The canvas state before the failing resize: old logical size
800×600 (device pixel ratio 1) with one star whose origin is at
`x = 100`. -/
def preResizeField : CanvasState :=
  { canvasWidth := 800
    canvasHeight := 600
    stars := [{ testStar with originX := 100, x := 100 }] }

/-- The parallax-reset step only touches the parallax offsets. -/
theorem parallaxDecayStep_proj (mouse : Option Mouse) (s : Star) :
    (parallaxDecayStep mouse s).currentSize = s.currentSize ∧
    (parallaxDecayStep mouse s).size = s.size ∧
    (parallaxDecayStep mouse s).isShooting = s.isShooting ∧
    (parallaxDecayStep mouse s).shootStartTime = s.shootStartTime ∧
    (parallaxDecayStep mouse s).shootDuration = s.shootDuration := by
  simp only [parallaxDecayStep]
  split_ifs <;> exact ⟨rfl, rfl, rfl, rfl, rfl⟩

/-- The blinking update only touches the blink flag, its timers,
lightness and alpha. -/
theorem updateBlinkingEffect_proj (t trigR durR : ℝ) (s : Star) :
    (updateBlinkingEffect t trigR durR s).currentSize = s.currentSize ∧
    (updateBlinkingEffect t trigR durR s).size = s.size ∧
    (updateBlinkingEffect t trigR durR s).isShooting = s.isShooting ∧
    (updateBlinkingEffect t trigR durR s).shootStartTime = s.shootStartTime ∧
    (updateBlinkingEffect t trigR durR s).shootDuration = s.shootDuration := by
  simp only [updateBlinkingEffect]
  split_ifs <;> exact ⟨rfl, rfl, rfl, rfl, rfl⟩

/-- The regular (non-shooting) part of `update` never changes
`currentSize` or the shooting flag. -/
theorem restUpdate_proj (t : ℝ) (mouse : Option Mouse) (maxDistance : ℝ)
    (r : UpdateRand) (s : Star) :
    (restUpdate t mouse maxDistance r s).currentSize = s.currentSize ∧
    (restUpdate t mouse maxDistance r s).isShooting = s.isShooting := by
  cases mouse <;> simp only [restUpdate] <;> split_ifs <;> exact ⟨rfl, rfl⟩

/-- Neither branch of `startShooting` changes the star's `currentSize`
or the stored settings. -/
theorem startShooting_proj (t : ℝ) (r : UpdateRand) (s : Star) (g : ShootingState) :
    (startShooting t r s g).2.1.currentSize = s.currentSize ∧
    (startShooting t r s g).2.2.settings = g.settings := by
  simp only [startShooting]
  split_ifs <;> exact ⟨rfl, rfl⟩

/-- An `update` call never changes the stored settings. -/
theorem update_settings (time : ℝ) (mouse : Option Mouse) (maxDistance : ℝ)
    (r : UpdateRand) (s : Star) (g : ShootingState) :
    (update time mouse maxDistance r s g).2.settings = g.settings := by
  simp only [update]
  split_ifs <;>
    first
      | rfl
      | exact (startShooting_proj _ _ _ _).2

/-- With the shooting-star setting disabled, `update` reduces to the
blinking step followed by the regular update, leaving the shared state
untouched. -/
theorem update_disabled_eq (time : ℝ) (mouse : Option Mouse) (maxDistance : ℝ)
    (r : UpdateRand) (s : Star) (g : ShootingState)
    (hoff : g.settings.enabled = false) :
    update time mouse maxDistance r s g =
      (restUpdate time mouse maxDistance r
        (updateBlinkingEffect time r.blinkTrigR r.blinkDurR (parallaxDecayStep mouse s)), g) := by
  simp only [update]
  rw [if_neg (by simp [hoff]), if_neg (by simp [hoff])]

/-- With the setting enabled, a shoot whose progress has reached 1 is
ended by `update`: the flag is cleared and the shared counter is
decremented before the regular update runs. -/
theorem update_shootingDone (time : ℝ) (mouse : Option Mouse) (maxDistance : ℝ)
    (r : UpdateRand) (s : Star) (g : ShootingState)
    (hon : g.settings.enabled = true) (hs : s.isShooting = true)
    (hprog : 1 ≤ (time - s.shootStartTime) / s.shootDuration) :
    (update time mouse maxDistance r s g).1.isShooting = false ∧
    (update time mouse maxDistance r s g).2.shootingStarsCount =
      g.shootingStarsCount - 1 := by
  have hp := parallaxDecayStep_proj mouse s
  simp only [update]
  set s2 := updateBlinkingEffect time r.blinkTrigR r.blinkDurR (parallaxDecayStep mouse s)
    with hs2
  have hb := updateBlinkingEffect_proj time r.blinkTrigR r.blinkDurR (parallaxDecayStep mouse s)
  rw [← hs2] at hb
  have hcond : g.settings.enabled = true ∧ s2.isShooting = true :=
    ⟨hon, by rw [hb.2.2.1, hp.2.2.1]; exact hs⟩
  rw [if_pos hcond]
  have hprog2 : 1 ≤ (time - s2.shootStartTime) / s2.shootDuration := by
    rw [hb.2.2.2.1, hp.2.2.2.1, hb.2.2.2.2, hp.2.2.2.2]; exact hprog
  rw [if_pos hprog2]
  exact ⟨by rw [(restUpdate_proj _ _ _ _ _).2], rfl⟩

/-- A successful `startShooting` with a nonzero last-event timestamp
can only happen after the scheduled inter-event delay has elapsed. -/
theorem startShooting_started_delay (t : ℝ) (r : UpdateRand) (s : Star)
    (g : ShootingState) (hlast : g.lastShootingStarTime ≠ 0)
    (hstart : (startShooting t r s g).1 = true) :
    g.nextShootingStarDelay ≤ t - g.lastShootingStarTime := by
  simp only [startShooting] at hstart
  split_ifs at hstart with h1 h2
  push_neg at h2
  exact h2.2 hlast

/-- A `startShooting` call keeps the shared counter at or below an
integer-valued configured maximum. -/
theorem startShooting_count_le (t : ℝ) (r : UpdateRand) (s : Star)
    (g : ShootingState) (n : ℕ)
    (hmax : g.settings.maxStarsAtOnce = (n : ℝ))
    (hc : g.shootingStarsCount ≤ (n : ℤ)) :
    (startShooting t r s g).2.2.shootingStarsCount ≤ (n : ℤ) := by
  simp only [startShooting]
  split_ifs with h1 h2
  · exact hc
  · exact hc
  · push_neg at h2
    have hlt : (g.shootingStarsCount : ℝ) < (n : ℝ) := hmax ▸ h2.1
    have hz : g.shootingStarsCount < (n : ℤ) := by exact_mod_cast hlt
    show g.shootingStarsCount + 1 ≤ (n : ℤ)
    omega

/-- An `update` call keeps the shared counter at or below an
integer-valued configured maximum. -/
theorem update_count_le (time : ℝ) (mouse : Option Mouse) (maxDistance : ℝ)
    (r : UpdateRand) (s : Star) (g : ShootingState) (n : ℕ)
    (hmax : g.settings.maxStarsAtOnce = (n : ℝ))
    (hc : g.shootingStarsCount ≤ (n : ℤ)) :
    (update time mouse maxDistance r s g).2.shootingStarsCount ≤ (n : ℤ) := by
  simp only [update]
  split_ifs with h1 h2 h3
  · show g.shootingStarsCount - 1 ≤ (n : ℤ)
    omega
  · exact hc
  · exact startShooting_count_le _ _ _ _ n hmax hc
  · exact hc

/-- One field call preserves the stored settings and the counter
bound. -/
theorem applyFieldOp_glob (st : FieldState) (op : FieldOp) (n : ℕ)
    (hmax : st.glob.settings.maxStarsAtOnce = (n : ℝ))
    (hc : st.glob.shootingStarsCount ≤ (n : ℤ)) :
    (applyFieldOp st op).glob.settings = st.glob.settings ∧
    (applyFieldOp st op).glob.shootingStarsCount ≤ (n : ℤ) := by
  cases op with
  | upd i time mouse maxDistance r =>
    simp only [applyFieldOp]
    cases st.stars.get? i with
    | none => exact ⟨rfl, hc⟩
    | some s =>
      exact ⟨update_settings time mouse maxDistance r s st.glob,
        update_count_le time mouse maxDistance r s st.glob n hmax hc⟩
  | shoot i time r =>
    simp only [applyFieldOp]
    cases st.stars.get? i with
    | none => exact ⟨rfl, hc⟩
    | some s =>
      exact ⟨(startShooting_proj time r s st.glob).2,
        startShooting_count_le time r s st.glob n hmax hc⟩

/-- The counter bound is preserved by any sequence of field calls. -/
theorem runFieldOps_count_le (ops : List FieldOp) (st : FieldState) (n : ℕ)
    (hmax : st.glob.settings.maxStarsAtOnce = (n : ℝ))
    (hc : st.glob.shootingStarsCount ≤ (n : ℤ)) :
    (runFieldOps st ops).glob.shootingStarsCount ≤ (n : ℤ) := by
  induction ops generalizing st with
  | nil => exact hc
  | cons op ops ih =>
    have h := applyFieldOp_glob st op n hmax hc
    have hmax2 : (applyFieldOp st op).glob.settings.maxStarsAtOnce = (n : ℝ) := by
      rw [h.1]; exact hmax
    exact ih (applyFieldOp st op) hmax2 h.2

/-- C1 as amended: with the shooting-star settings held fixed and
`maxStarsAtOnce` a natural number `n`, the shared counter never
exceeds `n` over any sequence of per-particle `update` and
`startShooting` calls; and any `startShooting` that succeeds while the
stored last-event timestamp is nonzero can only do so after the
randomized inter-event delay has elapsed.  (An event that starts at
time 0 stores the falsy timestamp 0, which bypasses the delay gate —
see the counterexample.) -/
theorem shootingBudget_invariant (st : FieldState) (ops : List FieldOp) (n : ℕ)
    (hmax : st.glob.settings.maxStarsAtOnce = (n : ℝ))
    (hcount : st.glob.shootingStarsCount ≤ (n : ℤ)) :
    (runFieldOps st ops).glob.shootingStarsCount ≤ (n : ℤ) ∧
    ∀ (s : Star) (g : ShootingState) (t : ℝ) (r : UpdateRand),
      g.lastShootingStarTime ≠ 0 → (startShooting t r s g).1 = true →
      g.nextShootingStarDelay ≤ t - g.lastShootingStarTime :=
  ⟨runFieldOps_count_le ops st n hmax hcount,
   fun s g t r hlast hstart => startShooting_started_delay t r s g hlast hstart⟩

/-- C1 counterexample: two shoot events both start at time 0.  The
first start succeeds and schedules a 100 ms delay, but stores the
last-event timestamp 0, which is falsy; the second start at the very
same instant therefore also succeeds, although the elapsed time (0 ms)
is strictly less than the scheduled delay — the claimed inter-event
delay gate is violated. -/
theorem shootingDelay_bypassed_at_time_zero :
    (startShooting 0 {} testStar enabledShootState).1 = true ∧
    (startShooting 0 {} testStar
      (startShooting 0 {} testStar enabledShootState).2.2).1 = true ∧
    0 - (startShooting 0 {} testStar enabledShootState).2.2.lastShootingStarTime <
      (startShooting 0 {} testStar enabledShootState).2.2.nextShootingStarDelay := by
  norm_num [startShooting, enabledShootState, enabledSettings]

/-- Witness for the amended C1: one direct `startShooting` call on a
fresh enabled field keeps the counter at or below the default maximum
of 3. -/
theorem shootingBudget_invariant_witness :
    (runFieldOps { stars := [testStar], glob := enabledShootState }
        [FieldOp.shoot 0 5 {}]).glob.shootingStarsCount ≤ (3 : ℤ) :=
  (shootingBudget_invariant { stars := [testStar], glob := enabledShootState }
    [FieldOp.shoot 0 5 {}] 3
    (by norm_num [enabledShootState, enabledSettings])
    (by norm_num [enabledShootState])).1

/-- C3 counterexample: a particle state with every stored numeric
field finite and base size 1 > 0 but `currentSize = 0` keeps
`currentSize = 0` across an `update` call (the non-shooting path never
writes `currentSize`), so the claimed unconditional positivity fails. -/
theorem update_currentSize_not_pos :
    ¬ (0 < (update 0 none 150 {}
        { testStar with currentSize := 0 } initialShootingState).1.currentSize) := by
  have heq : (update 0 none 150 {}
      { testStar with currentSize := 0 } initialShootingState).1.currentSize = 0 := by
    rw [update_disabled_eq 0 none 150 {} _ _ (by rfl)]
    rw [(restUpdate_proj _ _ _ _ _).1, (updateBlinkingEffect_proj _ _ _ _).1,
      (parallaxDecayStep_proj _ _).1]
  rw [heq]
  norm_num

/-- C3 as amended: `update` preserves strict positivity of
`currentSize` — for a particle whose base size and current size are
both positive (as established by the constructor), the current size is
still positive after any `update` call; all position coordinates stay
well-defined real numbers by construction of the model. -/
theorem update_currentSize_pos (time : ℝ) (mouse : Option Mouse) (maxDistance : ℝ)
    (r : UpdateRand) (s : Star) (g : ShootingState)
    (hsize : 0 < s.size) (hcur : 0 < s.currentSize) :
    0 < (update time mouse maxDistance r s g).1.currentSize := by
  have hp := parallaxDecayStep_proj mouse s
  simp only [update]
  set s2 := updateBlinkingEffect time r.blinkTrigR r.blinkDurR (parallaxDecayStep mouse s)
    with hs2
  have hb := updateBlinkingEffect_proj time r.blinkTrigR r.blinkDurR (parallaxDecayStep mouse s)
  rw [← hs2] at hb
  have h2size : s2.size = s.size := by rw [hb.2.1, hp.2.1]
  have h2cur : s2.currentSize = s.currentSize := by rw [hb.1, hp.1]
  split_ifs with h1 h2 h3
  · rw [(restUpdate_proj _ _ _ _ _).1]
    show 0 < s2.currentSize
    rw [h2cur]; exact hcur
  · show 0 < s2.size * (1.8 + 0.5 * Real.sin (time * 0.02))
    have hsin := Real.neg_one_le_sin (time * 0.02)
    have hfac : (0 : ℝ) < 1.8 + 0.5 * Real.sin (time * 0.02) := by nlinarith
    exact mul_pos (h2size ▸ hsize) hfac
  · rw [(startShooting_proj _ _ _ _).1]
    rw [h2cur]; exact hcur
  · rw [(restUpdate_proj _ _ _ _ _).1]
    rw [h2cur]; exact hcur

/-- Witness for the amended C3: the concrete test particle keeps a
positive current size across an update at time 0. -/
theorem update_currentSize_pos_witness :
    0 < (update 0 none 150 {} testStar initialShootingState).1.currentSize :=
  update_currentSize_pos 0 none 150 {} testStar initialShootingState
    (by norm_num [testStar]) (by norm_num [testStar])

/-- C9: while the shooting-star setting is disabled, `update` never
clears a particle's `isShooting` flag and never changes the shared
state (in particular the counter is not decremented), freezing the
mid-shoot particle and its consumed capacity; once the setting is
re-enabled and the shoot's progress has reached 1, the next `update`
clears the flag and releases one unit of the counter. -/
theorem update_disabled_freezes (t t' : ℝ) (mouse mouse' : Option Mouse)
    (maxD maxD' : ℝ) (r r' : UpdateRand) (s : Star) (g gOn : ShootingState)
    (hoff : g.settings.enabled = false) (hs : s.isShooting = true)
    (hon : gOn.settings.enabled = true)
    (hprog : 1 ≤ (t' - s.shootStartTime) / s.shootDuration) :
    (update t mouse maxD r s g).1.isShooting = true ∧
    (update t mouse maxD r s g).2 = g ∧
    (update t' mouse' maxD' r' s gOn).1.isShooting = false ∧
    (update t' mouse' maxD' r' s gOn).2.shootingStarsCount =
      gOn.shootingStarsCount - 1 := by
  have hdone := update_shootingDone t' mouse' maxD' r' s gOn hon hs hprog
  refine ⟨?_, ?_, hdone.1, hdone.2⟩
  · rw [update_disabled_eq t mouse maxD r s g hoff]
    rw [(restUpdate_proj _ _ _ _ _).2, (updateBlinkingEffect_proj _ _ _ _).2.2.1,
      (parallaxDecayStep_proj _ _).2.2.1]
    exact hs
  · rw [update_disabled_eq t mouse maxD r s g hoff]

/-- Witness for C9: the concrete mid-shoot particle is frozen by an
update with the feature off, and released by an update at time 5000
with the feature on. -/
theorem update_disabled_freezes_witness :
    (update 0 none 150 {} shootingStar busyOffState).1.isShooting = true ∧
    (update 0 none 150 {} shootingStar busyOffState).2 = busyOffState ∧
    (update 5000 none 150 {} shootingStar busyOnState).1.isShooting = false ∧
    (update 5000 none 150 {} shootingStar busyOnState).2.shootingStarsCount =
      busyOnState.shootingStarsCount - 1 :=
  update_disabled_freezes 0 5000 none none 150 150 {} {} shootingStar
    busyOffState busyOnState
    (by simp [busyOffState, defaultShootingSettings])
    (by simp [shootingStar])
    (by simp [busyOnState, busyOffState, enabledSettings])
    (by simp [shootingStar, testStar]; norm_num)

/-- C4: once a blink's duration has elapsed (progress `≥ 1`), the next
`updateBlinkingEffect` call ends the blink and restores lightness and
alpha exactly to the pre-blink snapshot (`originalLightness`,
`originalAlpha`). -/
theorem updateBlinkingEffect_restores_after_completion
    (t trigR durR : ℝ) (s : Star)
    (hb : s.isBlinking = true)
    (hp : 1 ≤ (t - s.blinkStartTime) / s.blinkDuration) :
    (updateBlinkingEffect t trigR durR s).lightness = s.originalLightness ∧
    (updateBlinkingEffect t trigR durR s).alpha = s.originalAlpha ∧
    (updateBlinkingEffect t trigR durR s).isBlinking = false := by
  simp [updateBlinkingEffect, hb, hp]

/-- Witness for C4: a star mid-blink (start 0, duration 1000) at time
2000 is restored to its snapshot. -/
theorem updateBlinkingEffect_restores_after_completion_witness :
    (updateBlinkingEffect 2000 1 0 blinkStar).lightness = blinkStar.originalLightness ∧
    (updateBlinkingEffect 2000 1 0 blinkStar).alpha = blinkStar.originalAlpha ∧
    (updateBlinkingEffect 2000 1 0 blinkStar).isBlinking = false :=
  updateBlinkingEffect_restores_after_completion 2000 1 0 _
    (by simp [blinkStar, testStar])
    (by simp [blinkStar, testStar]; norm_num)

/-- C5 counterexample: while blinking at progress 1/2 the particle's
alpha is `baseline · (envelope · 0.5 + 0.8)`, not
`baseline · envelope` as claimed — at this input the code yields 1.8
while the claim demands 2. -/
theorem updateBlinkingEffect_alpha_not_envelope :
    (updateBlinkingEffect 500 1 0 blinkStar).alpha ≠
      blinkStar.originalAlpha *
        (Real.sin ((500 - blinkStar.blinkStartTime) / blinkStar.blinkDuration * Real.pi)
          * 0.8 + 1.2) := by
  have hs : Real.sin ((1 : ℝ) / 2 * Real.pi) = 1 := by
    rw [show (1 : ℝ) / 2 * Real.pi = Real.pi / 2 by ring]
    exact Real.sin_pi_div_two
  simp only [updateBlinkingEffect, blinkStar, testStar]
  norm_num [hs]

/-- C5 as amended: while a particle is blinking with progress
`p ∈ [0, 1)`, its lightness is the pre-blink baseline times the
half-sine envelope `sin(p·π)·0.8 + 1.2`, while its alpha is the
baseline times `envelope · 0.5 + 0.8` (not the bare envelope). -/
theorem updateBlinkingEffect_modulation
    (t trigR durR : ℝ) (s : Star)
    (hb : s.isBlinking = true)
    (hp : (t - s.blinkStartTime) / s.blinkDuration < 1)
    (_hp0 : 0 ≤ (t - s.blinkStartTime) / s.blinkDuration) :
    (updateBlinkingEffect t trigR durR s).lightness =
      s.originalLightness *
        (Real.sin ((t - s.blinkStartTime) / s.blinkDuration * Real.pi) * 0.8 + 1.2) ∧
    (updateBlinkingEffect t trigR durR s).alpha =
      s.originalAlpha *
        ((Real.sin ((t - s.blinkStartTime) / s.blinkDuration * Real.pi) * 0.8 + 1.2) * 0.5
          + 0.8) := by
  have hlt : ¬ (1 ≤ (t - s.blinkStartTime) / s.blinkDuration) := not_le.mpr hp
  simp [updateBlinkingEffect, hb, hlt]

/-- Witness for the amended C5: a blink at progress 1/2. -/
theorem updateBlinkingEffect_modulation_witness :
    (updateBlinkingEffect 500 1 0 blinkStar).lightness =
      blinkStar.originalLightness *
        (Real.sin ((500 - blinkStar.blinkStartTime) / blinkStar.blinkDuration * Real.pi)
          * 0.8 + 1.2) ∧
    (updateBlinkingEffect 500 1 0 blinkStar).alpha =
      blinkStar.originalAlpha *
        ((Real.sin ((500 - blinkStar.blinkStartTime) / blinkStar.blinkDuration * Real.pi)
          * 0.8 + 1.2) * 0.5 + 0.8) :=
  updateBlinkingEffect_modulation 500 1 0 _
    (by simp [blinkStar, testStar])
    (by simp [blinkStar, testStar]; norm_num)
    (by simp [blinkStar, testStar]; norm_num)

/-- C10: `Star.updateShootingStarSettings` called with `0` for each
numeric field keeps the previous stored values (the falsy value falls
back to the old setting), while `enabled = false` is applied. -/
theorem updateShootingStarSettings_zero_falls_back (old : ShootingSettings) :
    updateShootingStarSettings
        (some { enabled := some false, maxStarsAtOnce := some 0,
                maxShootDurationSeconds := some 0, maxEventSeconds := some 0 }) old =
      { enabled := false, maxStarsAtOnce := old.maxStarsAtOnce,
        maxShootDurationSeconds := old.maxShootDurationSeconds,
        maxEventSeconds := old.maxEventSeconds } := by
  simp [updateShootingStarSettings, jsOrNum]

/-- C6 counterexample: after `setBackgroundOpacity 0` the next frame's
fill alpha is `1 · trailFadeSpeed = 0.05`, not `0 · trailFadeSpeed = 0`
as the claim requires for `o = 0` — the stored zero is falsy and the
`|| 1` fallback replaces it. -/
theorem animateFillAlpha_zero_opacity_not_roundtrip :
    animateFillAlpha (setBackgroundOpacity 0 ({} : StarfieldOptions)) ≠
      0 * (({} : StarfieldOptions).trailFadeSpeed.getD 0.05) := by
  norm_num [animateFillAlpha, setBackgroundOpacity, jsOrNum]

/-- C6 as amended: for every opacity `o` with `0 < o ≤ 1`, after
`setBackgroundOpacity o` the next frame's background fill alpha is
exactly `o` multiplied by the trail-fade speed; at `o = 0` the falsy
fallback substitutes `1` instead. -/
theorem animateFillAlpha_roundtrip (o : ℝ) (opts : StarfieldOptions)
    (h0 : 0 < o) (h1 : o ≤ 1) :
    animateFillAlpha (setBackgroundOpacity o opts) =
      o * opts.trailFadeSpeed.getD 0.05 := by
  have hmax : max 0 o = o := max_eq_right h0.le
  have hmin : min 1 (max 0 o) = o := by rw [hmax]; exact min_eq_right h1
  simp [animateFillAlpha, setBackgroundOpacity, jsOrNum, hmin, h0.ne']

/-- Witness for the amended C6: `o = 1/2` with trail-fade speed `1/5`
yields fill alpha `1/10`. -/
theorem animateFillAlpha_roundtrip_witness :
    animateFillAlpha
        (setBackgroundOpacity (1/2)
          ({ trailFadeSpeed := some (1/5) } : StarfieldOptions)) =
      1/2 * (({ trailFadeSpeed := some (1/5) } : StarfieldOptions).trailFadeSpeed.getD 0.05) :=
  animateFillAlpha_roundtrip (1/2) _ (by norm_num) (by norm_num)

/-- The concrete test particle sits at distance 50 from the point
`(30, 40)`. -/
theorem testStar_mouse_distance :
    Utils.distance testStar.x testStar.y 30 40 = 50 := by
  simp only [Utils.distance, testStar]
  rw [show ((0 : ℝ) - 30) * ((0 : ℝ) - 30) + ((0 : ℝ) - 40) * ((0 : ℝ) - 40) = 50 ^ 2 by
    norm_num]
  exact Real.sqrt_sq (by norm_num)

/-- C8 counterexample: for a particle at distance 50 with connection
distance 100 and connection opacity 1, the drawn gradient's end stop
has alpha `(1 - d/D) · opacity · 0.5 = 0.25`, not the claimed
`(1 - d/D) · opacity · 0.8 = 0.4`; the stop colors are the hardcoded
white and `rgb(100, 149, 237)`, not the configured connection colors. -/
theorem drawConnections_end_alpha_mismatch :
    (drawConnections [testStar] (some { x := 30, y := 40 }) 100 1).map
        (fun l => l.grad1.a) ≠
      [(1 - Utils.distance testStar.x testStar.y 30 40 / 100) * 1 * 0.8] := by
  have hd := testStar_mouse_distance
  simp only [drawConnections, List.filterMap_cons, List.filterMap_nil, connectionFor, hd]
  norm_num

/-- C8 as amended: when a particle is strictly within the connection
distance of the pointer, the drawn line's gradient uses the hardcoded
colors white and `rgb(100, 149, 237)`: the start stop's alpha is
`(1 - d/D) · connectionOpacity` and the end stop's alpha is that value
additionally scaled by 0.5 (the configured connection colors and the
claimed 0.8 factor are not used by this renderer). -/
theorem connectionFor_gradient (s : Star) (m : Mouse) (D O : ℝ)
    (h : Utils.distance s.x s.y m.x m.y < D) :
    connectionFor s m D O = some
      { x1 := s.x, y1 := s.y, x2 := m.x, y2 := m.y,
        grad0 := { r := 255, g := 255, b := 255,
                   a := (1 - Utils.distance s.x s.y m.x m.y / D) * O },
        grad1 := { r := 100, g := 149, b := 237,
                   a := (1 - Utils.distance s.x s.y m.x m.y / D) * O * 0.5 } } := by
  simp [connectionFor, h]

/-- Witness for the amended C8: the test particle at distance 50 with
connection distance 100. -/
theorem connectionFor_gradient_witness :
    connectionFor testStar { x := 30, y := 40 } 100 1 = some
      { x1 := testStar.x, y1 := testStar.y,
        x2 := ({ x := 30, y := 40 } : Mouse).x, y2 := ({ x := 30, y := 40 } : Mouse).y,
        grad0 := { r := 255, g := 255, b := 255,
                   a := (1 - Utils.distance testStar.x testStar.y
                       ({ x := 30, y := 40 } : Mouse).x ({ x := 30, y := 40 } : Mouse).y
                       / 100) * 1 },
        grad1 := { r := 100, g := 149, b := 237,
                   a := (1 - Utils.distance testStar.x testStar.y
                       ({ x := 30, y := 40 } : Mouse).x ({ x := 30, y := 40 } : Mouse).y
                       / 100) * 1 * 0.5 } } :=
  connectionFor_gradient testStar { x := 30, y := 40 } 100 1
    (by show Utils.distance testStar.x testStar.y 30 40 < 100
        rw [testStar_mouse_distance]; norm_num)

/-- C7 failing input, evaluated: resizing the 800-wide field to a new
logical width of 400 at device pixel ratio 1 leaves the star's origin
at 100, because the code computes the rescale factor as
`width / this.canvas.width` *after* setting `canvas.width` to
`⌊width · dpr⌋` — the old size never enters, so the origin is not
multiplied by the claimed new/old ratio `400/800` (which would give
50). -/
theorem resize_ignores_old_logical_size :
    ((resize 400 600 1 preResizeField fun _ => (1/2, 1/2)).stars.map Star.originX) =
      [100] ∧
    (100 : ℝ) ≠ 100 * (400 / 800) := by
  constructor
  · norm_num [resize, preResizeField, resizeStars]
  · norm_num

/-- The per-cluster star budget of `createStars` never exceeds the
configured total star count. -/
theorem clusterBudget_le (starCount cc m : ℕ) :
    cc * min (starCount * 2 / 10 / cc) m ≤ starCount := by
  have h1 : cc * min (starCount * 2 / 10 / cc) m ≤ cc * (starCount * 2 / 10 / cc) :=
    Nat.mul_le_mul_left cc (min_le_left _ _)
  have h2 : cc * (starCount * 2 / 10 / cc) ≤ starCount * 2 / 10 := by
    rw [mul_comm]; exact Nat.div_mul_le_self _ _
  have h3 : starCount * 2 / 10 ≤ starCount := by
    calc starCount * 2 / 10 ≤ starCount * 10 / 10 :=
          Nat.div_le_div_right (Nat.mul_le_mul_left _ (by norm_num))
      _ = starCount := Nat.mul_div_cancel _ (by norm_num)
  exact le_trans (le_trans h1 h2) h3

/-- The list built by `createClusters` has exactly
`count × starsPerCluster` particles. -/
theorem createClusters_length (count : ℕ) (width height : ℝ) (spc : ℕ) (ms : ℝ)
    (opts : StarfieldOptions) (rc : ℕ → ClusterRand) (rcs : ℕ → ℕ → ClusterStarRand) :
    (createClusters count width height spc ms opts rc rcs).length = count * spc := by
  simp only [createClusters, List.length_flatMap, Function.comp_def, List.length_map,
    List.length_range]
  simp [List.map_const', List.sum_replicate, smul_eq_mul]

/-- C2 counterexample: with `clusterCount = 0` and `starCount = 4` the
source computes `clusteredStars = 0` and `0/0 = NaN`, which propagates
through `starsPerCluster` and `remainingStars`, so neither loop runs
and the repopulated collection is empty — it does not contain
`starCount = 4` particles. -/
theorem createStars_nan_cascade_empty :
    (createStars { starCount := 4, clusterCount := some 0 } 800 600
        (fun _ => {}) (fun _ _ => {}) (fun _ => {})).length ≠
      ({ starCount := 4, clusterCount := some 0 } : StarfieldOptions).starCount := by
  simp [createStars, createClusters]

/-- C2 as amended: after `createStars` runs, the particle collection
is sorted ascending by the depth key `zIndex` and — outside the
`0/0`-`NaN` corner, i.e. whenever the cluster count is nonzero, or the
clustered carve-out `⌊starCount·0.2⌋` is nonzero, or `starCount = 0` —
contains exactly `starCount` particles; in particular the
`starCount = 100`, `clustersEnabled = false` scenario yields exactly
100 sorted particles.  In the `NaN` corner (`clusterCount = 0` with
`0 < starCount ≤ 4`) the collection is empty instead. -/
theorem createStars_count_and_sorted (opts : StarfieldOptions) (width height : ℝ)
    (rc : ℕ → ClusterRand) (rcs : ℕ → ℕ → ClusterStarRand) (rf : ℕ → FieldStarRand)
    (h : opts.clusterCount.getD 5 ≠ 0 ∨ opts.starCount * 2 / 10 ≠ 0 ∨
      opts.starCount = 0) :
    (createStars opts width height rc rcs rf).length = opts.starCount ∧
    (createStars opts width height rc rcs rf).Pairwise
      (fun a b => a.zIndex ≤ b.zIndex) := by
  constructor
  · simp only [createStars]
    rw [List.length_mergeSort, List.length_append, createClusters_length,
      List.length_map, List.length_range]
    rcases eq_or_ne (opts.clusterCount.getD 5) 0 with hcc | hcc
    · rcases eq_or_ne (opts.starCount * 2 / 10) 0 with hcs | hcs
      · have hsc : opts.starCount = 0 := by
          rcases h with h | h | h
          · exact absurd hcc h
          · exact absurd hcs h
          · exact h
        simp [hcc, hcs, hsc]
      · simp [hcc, hcs]
    · rw [if_neg hcc]
      simp only [Option.getD_some, Option.map_some]
      exact Nat.add_sub_cancel' (clusterBudget_le _ _ _)
  · simp only [createStars]
    refine List.Pairwise.imp ?_ (List.sorted_mergeSort ?_ ?_ _)
    · intro a b h
      exact of_decide_eq_true h
    · intro a b c hab hbc
      simp only [decide_eq_true_eq] at hab hbc ⊢
      exact le_trans hab hbc
    · intro a b
      simp only [Bool.or_eq_true, decide_eq_true_eq]
      exact le_total a.zIndex b.zIndex

/-- Witness for the amended C2: the claim's own scenario —
`starCount = 100` with `clustersEnabled = false` (and the default
cluster count 5) — yields exactly 100 particles in ascending `zIndex`
order. -/
theorem createStars_count_and_sorted_witness :
    (createStars { starCount := 100, clustersEnabled := false } 800 600
        (fun _ => {}) (fun _ _ => {}) (fun _ => {})).length =
      ({ starCount := 100, clustersEnabled := false } : StarfieldOptions).starCount ∧
    (createStars { starCount := 100, clustersEnabled := false } 800 600
        (fun _ => {}) (fun _ _ => {}) (fun _ => {})).Pairwise
      (fun a b => a.zIndex ≤ b.zIndex) :=
  createStars_count_and_sorted { starCount := 100, clustersEnabled := false } 800 600
    (fun _ => {}) (fun _ _ => {}) (fun _ => {}) (by norm_num)

end CosmicSky
